import Mathlib

/-!
# Verification of the AI-connector gateway core

A shallow embedding, in Lean 4, of the Python sources of the
`ai-connector` gateway (`app/pricing.py`, `app/runtime.py`, `app/main.py`,
`app/providers/openai_provider.py`, `app/providers/ollama_provider.py`),
together with theorems settling the specification claims about them.

Modelling conventions:
* JSON values (the payloads the adapters manipulate after `json.loads`)
  are the inductive `JsonVal`; Python dicts are association lists with
  unique keys (`JDict`), insertion ordered like Python dicts.
* Python floats are modelled as exact rationals (`ℚ`); `round(x, n)` is
  modelled as decimal rounding of the rational.  All numeric facts the
  claims mention are exact at this granularity.
* Wall-clock timestamps (`last_updated` fields) carry no information the
  claims touch and are omitted from the embedded state.
* Fallible Python code (a `raise`, a `KeyError`/`IndexError` on a
  malformed envelope) is embedded with `Except`/`Option`.
-/

/-- A JSON value, as produced by the Python `json.loads` decoder:
`null`/`None`, booleans, numbers, strings, arrays, objects. -/
inductive JsonVal where
  | null : JsonVal
  | bool : Bool → JsonVal
  | num : ℚ → JsonVal
  | str : String → JsonVal
  | arr : List JsonVal → JsonVal
  | obj : List (String × JsonVal) → JsonVal

/-- A Python dict with JSON values: an insertion-ordered association list
with unique keys (the uniqueness invariant of Python dicts is carried as a
hypothesis where a proof needs it). -/
abbrev JDict := List (String × JsonVal)

/-- `d[k]` lookup that distinguishes a missing key (`none`). -/
def dictGet (d : JDict) (k : String) : Option JsonVal :=
  d.lookup k

/-- Python `d.get(k, dflt)`: the stored value when the key is present
(also when it is JSON `null`), else the default. -/
def pyGetD (d : JDict) (k : String) (dflt : JsonVal) : JsonVal :=
  (dictGet d k).getD dflt

/-- Python `d.get(k)`: `None` for a missing key.  A stored JSON `null`
is also Python `None`, so both collapse to `JsonVal.null`. -/
def pyGet (d : JDict) (k : String) : JsonVal :=
  pyGetD d k .null

/-- Python truthiness of a decoded JSON value (`None`, `False`, `0`,
`""`, `[]` and `\x7b\x7d` are falsy). -/
def JsonVal.truthy : JsonVal → Bool
  | .null => false
  | .bool b => b
  | .num q => q ≠ 0
  | .str s => s ≠ ""
  | .arr xs => ¬ xs.isEmpty
  | .obj fs => ¬ fs.isEmpty

/-- Python `int(v)` on the values the modelled flows feed it (numbers and
booleans; `int()` truncates toward zero).  Non-numeric values raise in
Python and do not occur in the modelled data flows. -/
def jsonToInt : JsonVal → Int
  | .num q => q.num.tdiv (q.den : Int)
  | .bool b => if b then 1 else 0
  | _ => 0

/-- Numeric reading of a JSON value (used where Python would coerce an
int into float arithmetic). -/
def jsonToRat : JsonVal → ℚ
  | .num q => q
  | .bool b => if b then 1 else 0
  | _ => 0

/-- Python truthiness of an `Optional[Dict]` (`None` and the empty dict
are falsy). -/
def optDictTruthy : Option JDict → Bool
  | none => false
  | some d => ¬ d.isEmpty

/-- Round a rational to the nearest integer, halves up (an executable
`⌊q + 1/2⌋`). -/
def ratRoundHalfUp (q : ℚ) : ℤ :=
  (q + 1 / 2).num.fdiv ((q + 1 / 2).den : ℤ)

/-- Python `round(x, n)` on the exact rational model: round to `n`
decimal digits.  (Python rounds ties to even on binary floats; no value
in this development sits on a tie.) -/
def roundTo (q : ℚ) (n : ℕ) : ℚ :=
  (ratRoundHalfUp (q * 10 ^ n) : ℚ) / (10 ^ n : ℚ)

/-! ## `app/pricing.py` -/

/-- The `OPENAI_PRICING` table: per-model input/output USD prices per
1000 tokens. -/
def OPENAI_PRICING : List (String × List (String × ℚ)) :=
  [("gpt-4o-mini", [("input", 0.00015), ("output", 0.0006)]),
   ("gpt-4o", [("input", 0.0025), ("output", 0.01)]),
   ("gpt-4.1", [("input", 0.0025), ("output", 0.01)])]

/-- Python `model.lower()`, modelled characterwise (the ASCII case
mapping; every pricing key is ASCII). -/
def pyLower (s : String) : String :=
  String.mk (s.data.map Char.toLower)

/-- `OPENAI_PRICING.get(model) or OPENAI_PRICING.get(model.lower())`:
Python `or` falls through on a falsy (empty or missing) first lookup. -/
def pricingLookup (model : String) : Option (List (String × ℚ)) :=
  match OPENAI_PRICING.lookup model with
  | some p => if p.isEmpty then OPENAI_PRICING.lookup (pyLower model) else some p
  | none => OPENAI_PRICING.lookup (pyLower model)

/-- `estimate_cost_usd(provider, model, usage)` from `app/pricing.py`:
zero for falsy usage, non-openai providers and unknown models; otherwise
per-1000-token pricing rounded to 10 decimal digits. -/
def estimate_cost_usd (provider : String) (model : String)
    (usage : Option JDict) : ℚ :=
  match usage with
  | none => 0
  | some u =>
    if u.isEmpty then 0
    else if provider ≠ "openai" then 0
    else
      match pricingLookup model with
      | none => 0
      | some pricing =>
        let prompt_tokens := jsonToRat (pyGetD u "prompt_tokens" (.num 0))
        let completion_tokens := jsonToRat (pyGetD u "completion_tokens" (.num 0))
        let cost := (prompt_tokens / 1000) * ((pricing.lookup "input").getD 0)
          + (completion_tokens / 1000) * ((pricing.lookup "output").getD 0)
        roundTo cost 10

/-! ## `app/runtime.py`: the usage tracker

`UsageTracker` holds `_per_key` (a dict of `UsageAggregate`s) and
`_last_broadcast`; `record` mutates one aggregate, rebuilds the snapshot
and publishes it; `register` seeds a fresh bounded queue with the last
snapshot.  Wall-clock `last_updated` fields are omitted (no claim reads
them). -/

/-- Python dict assignment `d[k] = v`: update in place when the key
exists, else append preserving insertion order. -/
def dictInsert {β : Type} (d : List (String × β)) (k : String) (v : β) :
    List (String × β) :=
  match d with
  | [] => [(k, v)]
  | (k1, v1) :: rest =>
    if k1 = k then (k1, v) :: rest else (k1, v1) :: dictInsert rest k v

/-- The `UsageAggregate` dataclass (timestamp omitted). -/
structure UsageAggregate where
  provider : String
  model : String
  requests : Int
  prompt_tokens : Int
  completion_tokens : Int
  prompt_chars : Int
  eval_count : Int
  cost_usd : ℚ
  deriving DecidableEq

/-- `UsageAggregate(provider=..., model=...)` with the dataclass
defaults: all counters zero. -/
def UsageAggregate.init (provider model : String) : UsageAggregate :=
  ⟨provider, model, 0, 0, 0, 0, 0, 0⟩

/-- The `totals` dict of `_build_snapshot_locked` (fixed keys, so
modelled as a structure). -/
structure UsageTotals where
  requests : Int
  prompt_tokens : Int
  completion_tokens : Int
  prompt_chars : Int
  eval_count : Int
  cost_usd : ℚ
  deriving DecidableEq

/-- The zero-initialised `totals` dict. -/
def UsageTotals.zero : UsageTotals := ⟨0, 0, 0, 0, 0, 0⟩

/-- A `UsageSnapshot`: totals plus the `per_model` dict, whose entries
copy the fields of the aggregate (timestamp omitted), so an entry is the
aggregate itself here. -/
structure UsageSnapshot where
  totals : UsageTotals
  per_model : List (String × UsageAggregate)
  deriving DecidableEq

/-- One iteration of the `for key, agg in self._per_key.items()` loop of
`_build_snapshot_locked`: add the counters of one aggregate into `totals`. -/
def totalsStep (t : UsageTotals) (agg : UsageAggregate) : UsageTotals :=
  { requests := t.requests + agg.requests
    prompt_tokens := t.prompt_tokens + agg.prompt_tokens
    completion_tokens := t.completion_tokens + agg.completion_tokens
    prompt_chars := t.prompt_chars + agg.prompt_chars
    eval_count := t.eval_count + agg.eval_count
    cost_usd := t.cost_usd + agg.cost_usd }

/-- The loop of `_build_snapshot_locked`, accumulating `totals` and
`per_model` over the table entries. -/
def snapshotGo (t : UsageTotals) (pm : List (String × UsageAggregate)) :
    List (String × UsageAggregate) → UsageSnapshot
  | [] => ⟨t, pm⟩
  | (key, agg) :: rest => snapshotGo (totalsStep t agg) (dictInsert pm key agg) rest

/-- `UsageTracker._build_snapshot_locked`: zero totals, then fold the
table. -/
def build_snapshot_locked (table : List (String × UsageAggregate)) : UsageSnapshot :=
  snapshotGo UsageTotals.zero [] table

/-- The mutable state of a `UsageTracker` relevant to the claims:
`_per_key` and `_last_broadcast`. -/
structure TrackerState where
  per_key : List (String × UsageAggregate)
  last_broadcast : Option UsageSnapshot
  deriving DecidableEq

/-- `UsageTracker.__init__`: empty table, no broadcast yet. -/
def TrackerState.init : TrackerState := ⟨[], none⟩

/-- The in-place mutation of one aggregate inside `record`: `requests += 1`;
token counters added when `usage` is truthy (a non-empty dict); the
optional `prompt_chars`/`cost_usd` added when not `None`. -/
def recordUpdateAgg (agg : UsageAggregate) (usage : Option JDict)
    (prompt_chars : Option Int) (cost_usd : Option ℚ) : UsageAggregate :=
  let agg1 := { agg with requests := agg.requests + 1 }
  let agg2 :=
    match usage with
    | some u =>
      if u.isEmpty then agg1
      else
        { agg1 with
          prompt_tokens := agg1.prompt_tokens + jsonToInt (pyGetD u "prompt_tokens" (.num 0))
          completion_tokens :=
            agg1.completion_tokens + jsonToInt (pyGetD u "completion_tokens" (.num 0))
          eval_count := agg1.eval_count + jsonToInt (pyGetD u "eval_count" (.num 0)) }
    | none => agg1
  let agg3 :=
    match prompt_chars with
    | some pc => { agg2 with prompt_chars := agg2.prompt_chars + pc }
    | none => agg2
  match cost_usd with
  | some c => { agg3 with cost_usd := agg3.cost_usd + c }
  | none => agg3

/-- `UsageTracker.record` as a transition on the tracker state: look up
or create the aggregate for `provider:model`, mutate it, rebuild and
store the snapshot, return both.  (The post-lock publish loop over the
listener queues is modelled separately by `recordPublish`.) -/
def UsageTracker.record (st : TrackerState) (provider model : String)
    (usage : Option JDict) (prompt_chars : Option Int) (cost_usd : Option ℚ) :
    TrackerState × UsageSnapshot :=
  let key := provider ++ ":" ++ model
  let agg0 :=
    match st.per_key.lookup key with
    | some a => a
    | none => UsageAggregate.init provider model
  let agg1 := recordUpdateAgg agg0 usage prompt_chars cost_usd
  let table := dictInsert st.per_key key agg1
  let snapshot := build_snapshot_locked table
  (⟨table, some snapshot⟩, snapshot)

/-- The snapshot `register` seeds into the fresh subscriber queue:
`self._last_broadcast or self._build_snapshot_locked()`. -/
def UsageTracker.registerSeed (st : TrackerState) : UsageSnapshot :=
  st.last_broadcast.getD (build_snapshot_locked st.per_key)

/-- An `asyncio.Queue`: bounded when `maxsize > 0`. -/
structure BQueue where
  maxsize : Nat
  items : List UsageSnapshot
  deriving DecidableEq

/-- `asyncio.Queue.full()`: the queue is bounded and holds at least
`maxsize` items. -/
def BQueue.full (q : BQueue) : Bool :=
  0 < q.maxsize ∧ q.maxsize ≤ q.items.length

/-- `await queue.put(item)`: appends when the queue has room; on a full
queue the producer suspends until a consumer makes room — modelled as
`none` (the call does not complete without waiting). -/
def queuePut (q : BQueue) (item : UsageSnapshot) : Option BQueue :=
  if q.full then none else some { q with items := q.items ++ [item] }

/-- The queue `register` allocates: `asyncio.Queue(maxsize=10)`. -/
def registerQueue : BQueue := ⟨10, []⟩

/-- The publish loop at the end of `record`:
`for queue in listeners: await queue.put(snapshot)`.  It completes
without waiting only when every single put does. -/
def recordPublish (listeners : List BQueue) (snapshot : UsageSnapshot) :
    Option (List BQueue) :=
  match listeners with
  | [] => some []
  | q :: rest =>
    match queuePut q snapshot with
    | none => none
    | some q2 => (recordPublish rest snapshot).map (q2 :: ·)

/-- The inputs of one `record` call (used to talk about sequences of
recorded requests). -/
structure RecordCall where
  provider : String
  model : String
  usage : Option JDict
  prompt_chars : Option Int
  cost_usd : Option ℚ

/-- Apply a sequence of `record` calls to a tracker state. -/
def applyRecords (st : TrackerState) (calls : List RecordCall) : TrackerState :=
  calls.foldl
    (fun s c => (UsageTracker.record s c.provider c.model c.usage c.prompt_chars c.cost_usd).1)
    st

/-! ## `app/models.py`: the normalized chat model -/

/-- The `ResponseFormatConfig.type` literal. -/
inductive RFType where
  | text
  | json_object
  | json_schema
  deriving DecidableEq

/-- `ResponseFormatConfig`: desired response format plus the optional
schema payload. -/
structure ResponseFormatConfig where
  type : RFType
  json_schema : Option JDict

/-- A `ChatMessage` (the role literal is kept as its string). -/
structure ChatMessage where
  role : String
  content : String

/-- The fields of `ChatCompletionRequest` the adapters read. -/
structure ChatCompletionRequest where
  provider : String
  model : Option String
  messages : List ChatMessage
  temperature : Option ℚ
  max_tokens : Option Int
  top_p : Option ℚ
  response_format : Option ResponseFormatConfig

/-- A `ChatCompletionChunk`; `delta` is a Python `Any` (with
`JsonVal.null` for `None`), `raw` the decoded backend envelope. -/
structure ChatCompletionChunk where
  provider : String
  model : String
  delta : JsonVal
  done : Bool
  raw : JsonVal

/-- `message.model_dump()`: the message as a payload dict. -/
def messageDump (m : ChatMessage) : JDict :=
  [("role", .str m.role), ("content", .str m.content)]

/-- `Settings.default_openai_model`. -/
def default_openai_model : String := "gpt-4o-mini"

/-- `Settings.default_ollama_model`. -/
def default_ollama_model : String := "gpt-oss:20b"

/-- Is this value JSON `null` (Python `None`)? -/
def JsonVal.isNull : JsonVal → Bool
  | .null => true
  | _ => false

/-- The opening-brace character. -/
def lbraceChar : Char := Char.ofNat 123

/-- The closing-brace character. -/
def rbraceChar : Char := Char.ofNat 125

/-! ## `app/providers/openai_provider.py` -/

/-- `OpenAIProvider._map_response_format`: translate the normalized
response format to the wire payload; `raise ValueError` (the
`Except.error` branches) when a `json_schema` request has no usable
schema.  The final `Unsupported response format type` raise of the
source is unreachable here because `RFType` enumerates the same three
literals as the pydantic model. -/
def OpenAIProvider.map_response_format (rf : ResponseFormatConfig) :
    Except String JsonVal :=
  match rf.type with
  | .text => .ok (.obj [("type", .str "text")])
  | .json_object => .ok (.obj [("type", .str "json_object")])
  | .json_schema =>
    match rf.json_schema with
    | none => .error "json_schema response requires a json_schema payload"
    | some js =>
      if js.isEmpty then .error "json_schema response requires a json_schema payload"
      else
        let name := pyGetD js "name" (.str "structured_output")
        let schema := pyGet js "schema"
        if schema.truthy then
          .ok (.obj [("type", .str "json_schema"),
                     ("json_schema", .obj [("name", name), ("schema", schema)])])
        else .error "json_schema response requires a schema property"

/-- `OpenAIProvider._build_payload`: the request body of the POST to
`\x7bbase_url\x7d/chat/completions`.  The `ValueError` of
`_map_response_format` propagates (`Except.error`), aborting before the
network call. -/
def OpenAIProvider.build_payload (request : ChatCompletionRequest)
    (stream : Bool) : Except String JDict :=
  let p0 : JDict :=
    [("model", .str (request.model.getD default_openai_model)),
     ("messages", .arr (request.messages.map (fun m => .obj (messageDump m)))),
     ("stream", .bool stream)]
  let p1 := match request.temperature with
    | some t => dictInsert p0 "temperature" (.num t)
    | none => p0
  let p2 := match request.max_tokens with
    | some n => dictInsert p1 "max_tokens" (.num (n : ℚ))
    | none => p1
  let p3 := match request.top_p with
    | some t => dictInsert p2 "top_p" (.num t)
    | none => p2
  match request.response_format with
  | some rf =>
    match OpenAIProvider.map_response_format rf with
    | .error e => .error e
    | .ok mapped =>
      let p4 := dictInsert p3 "response_format" mapped
      .ok (if stream then dictInsert p4 "stream_options" (.obj [("include_usage", .bool true)]) else p4)
  | none =>
    .ok (if stream then dictInsert p3 "stream_options" (.obj [("include_usage", .bool true)]) else p3)

/-- One line of the cloud streaming body, classified by the branch the
source loop takes on it: empty line, comment line (leading colon), the
literal `data: [DONE]` sentinel, a non-`data:`-prefixed line, or a
`data: ` line whose JSON payload decoded to the given object. -/
inductive OAStreamLine where
  | blank
  | comment
  | doneSentinel
  | nonData
  | dataLine (payload : JDict)

/-- The envelope reading of the cloud stream loop:
`data["choices"][0]["delta"].get("content")` (falling back to truthy
`tool_calls`), and `finish_reason` non-null as the terminal marker.  A
malformed envelope (missing/empty `choices`, non-object entry or
`delta`) raises in Python: `Except.error`. -/
def oaEnvelope (d : JDict) : Except String (JsonVal × Bool) :=
  match dictGet d "choices" with
  | some (.arr (choice0 :: _)) =>
    match choice0 with
    | .obj c0 =>
      match dictGet c0 "delta" with
      | some (.obj delta0) =>
        let delta :=
          match pyGet delta0 "content" with
          | .null =>
            if (pyGet delta0 "tool_calls").truthy then pyGet delta0 "tool_calls" else .null
          | v => v
        .ok (delta, ¬ (pyGet c0 "finish_reason").isNull)
      | _ => .error "delta is not an object"
    | _ => .error "choices entry is not an object"
  | _ => .error "missing or empty choices"

/-- `data.get("model", payload["model"])` (a non-string `model` value
would fail pydantic validation; no modelled flow produces one). -/
def modelField (d : JDict) (payloadModel : String) : String :=
  match dictGet d "model" with
  | some (.str s) => s
  | _ => payloadModel

/-- `OpenAIProvider.create_completion_stream` as the translation of the
backend line sequence into the yielded chunk sequence: skip blank,
comment and non-data lines, stop at the sentinel, decode each data line
into a chunk, and stop right after yielding a terminal chunk.  A raised
decoding error terminates the sequence abnormally (`Except.error`). -/
def OpenAIProvider.processLines (payloadModel : String) :
    List OAStreamLine → Except String (List ChatCompletionChunk)
  | [] => .ok []
  | .blank :: rest => OpenAIProvider.processLines payloadModel rest
  | .comment :: rest => OpenAIProvider.processLines payloadModel rest
  | .doneSentinel :: _ => .ok []
  | .nonData :: rest => OpenAIProvider.processLines payloadModel rest
  | .dataLine d :: rest =>
    match oaEnvelope d with
    | .error e => .error e
    | .ok (delta, is_done) =>
      let c : ChatCompletionChunk := ⟨"openai", modelField d payloadModel, delta, is_done, .obj d⟩
      if is_done then .ok [c]
      else
        match OpenAIProvider.processLines payloadModel rest with
        | .error e => .error e
        | .ok cs => .ok (c :: cs)

/-! ## A `json.loads` / `json.dumps` model

The local adapter parses and serializes JSON text.  The parser below
follows the Python `json` module: the four JSON whitespace characters,
`null`/`true`/`false`, numbers (leading-zero rule, fraction, exponent),
strings with the standard escapes and `\uXXXX`, arrays, and objects with
last-wins duplicate keys; trailing garbage rejects the document.  (The
non-standard `NaN`/`Infinity` literals the Python decoder also accepts
have no rational counterpart and are rejected here; no modelled payload
contains them.) -/

/-- JSON whitespace. -/
def jsonWs (c : Char) : Bool :=
  c = ' ' ∨ c = '\t' ∨ c = '\n' ∨ c = '\r'

/-- Drop leading JSON whitespace. -/
def skipWs : List Char → List Char
  | [] => []
  | c :: rest => if jsonWs c then skipWs rest else c :: rest

/-- One hex digit. -/
def parseHex (c : Char) : Option Nat :=
  if '0' ≤ c ∧ c ≤ '9' then some (c.toNat - 48)
  else if 'a' ≤ c ∧ c ≤ 'f' then some (c.toNat - 87)
  else if 'A' ≤ c ∧ c ≤ 'F' then some (c.toNat - 55)
  else none

/-- The single-character string escapes. -/
def escChar (c : Char) : Option Char :=
  if c = '"' then some '"'
  else if c = '\\' then some '\\'
  else if c = '/' then some '/'
  else if c = 'b' then some '\x08'
  else if c = 'f' then some '\x0c'
  else if c = 'n' then some '\n'
  else if c = 'r' then some '\r'
  else if c = 't' then some '\t'
  else none

/-- Parse a JSON string body (after the opening quote), returning the
content and the input after the closing quote.  Strict mode: raw
control characters are rejected. -/
def parseStrBody : List Char → Option (List Char × List Char)
  | [] => none
  | '"' :: rest => some ([], rest)
  | '\\' :: 'u' :: h1 :: h2 :: h3 :: h4 :: rest =>
    match parseHex h1, parseHex h2, parseHex h3, parseHex h4 with
    | some a, some b, some c, some d =>
      (parseStrBody rest).map (fun p => (Char.ofNat (((a * 16 + b) * 16 + c) * 16 + d) :: p.1, p.2))
    | _, _, _, _ => none
  | '\\' :: e :: rest =>
    match escChar e with
    | some ch => (parseStrBody rest).map (fun p => (ch :: p.1, p.2))
    | none => none
  | c :: rest =>
    if c.toNat < 32 then none
    else (parseStrBody rest).map (fun p => (c :: p.1, p.2))

/-- Split off a leading digit run. -/
def takeDigits : List Char → (List Char × List Char)
  | [] => ([], [])
  | c :: rest =>
    if c.isDigit then
      let p := takeDigits rest
      (c :: p.1, p.2)
    else ([], c :: rest)

/-- Decimal digits to a natural number. -/
def digitsToNat (ds : List Char) : Nat :=
  ds.foldl (fun acc c => acc * 10 + (c.toNat - 48)) 0

/-- Parse the optional fraction part (a dot must be followed by at
least one digit). -/
def parseFracPart (cs : List Char) : Option (List Char × List Char) :=
  match cs with
  | '.' :: r =>
    let p := takeDigits r
    if p.1.isEmpty then none else some p
  | _ => some ([], cs)

/-- Parse the optional exponent part. -/
def parseExpPart (cs : List Char) : Option (Int × List Char) :=
  match cs with
  | 'e' :: r | 'E' :: r =>
    let sr : Int × List Char :=
      match r with
      | '+' :: t => (1, t)
      | '-' :: t => (-1, t)
      | _ => (1, r)
    let p := takeDigits sr.2
    if p.1.isEmpty then none else some (sr.1 * (digitsToNat p.1 : Int), p.2)
  | _ => some (0, cs)

/-- Parse a JSON number. -/
def parseNumber (cs : List Char) : Option (ℚ × List Char) :=
  let sgn : Bool × List Char := match cs with | '-' :: r => (true, r) | _ => (false, cs)
  let ip := takeDigits sgn.2
  if ip.1.isEmpty then none
  else if 1 < ip.1.length ∧ ip.1.head? = some '0' then none
  else
    match parseFracPart ip.2 with
    | none => none
    | some (fds, cs3) =>
      match parseExpPart cs3 with
      | none => none
      | some (ex, cs4) =>
        let mantissa : Int := (digitsToNat (ip.1 ++ fds) : Int)
        let mantissa := if sgn.1 then -mantissa else mantissa
        let scale : Int := ex - (fds.length : Int)
        let q : ℚ :=
          if 0 ≤ scale then ((mantissa * (10 : Int) ^ scale.toNat : Int) : ℚ)
          else mkRat mantissa ((10 : Nat) ^ (-scale).toNat)
        some (q, cs4)

mutual

/-- Parse one JSON value (fuel bounds nesting and list length). -/
def parseVal : Nat → List Char → Option (JsonVal × List Char)
  | 0, _ => none
  | Nat.succ fuel, cs =>
    match skipWs cs with
    | [] => none
    | c :: rest =>
      if c = '"' then (parseStrBody rest).map (fun p => (.str (String.mk p.1), p.2))
      else if c = lbraceChar then parseObjBody fuel rest
      else if c = '[' then parseArrBody fuel rest
      else if c = 'n' then
        match rest with
        | 'u' :: 'l' :: 'l' :: r => some (.null, r)
        | _ => none
      else if c = 't' then
        match rest with
        | 'r' :: 'u' :: 'e' :: r => some (.bool true, r)
        | _ => none
      else if c = 'f' then
        match rest with
        | 'a' :: 'l' :: 's' :: 'e' :: r => some (.bool false, r)
        | _ => none
      else (parseNumber (c :: rest)).map (fun p => (.num p.1, p.2))

/-- Parse an object body after the opening brace. -/
def parseObjBody : Nat → List Char → Option (JsonVal × List Char)
  | 0, _ => none
  | Nat.succ fuel, cs =>
    match skipWs cs with
    | [] => none
    | c :: rest =>
      if c = rbraceChar then some (.obj [], rest)
      else parseMembers fuel [] (c :: rest)

/-- Parse the members of a non-empty object (duplicate keys last-wins,
as in a Python dict). -/
def parseMembers : Nat → JDict → List Char → Option (JsonVal × List Char)
  | 0, _, _ => none
  | Nat.succ fuel, acc, cs =>
    match skipWs cs with
    | '"' :: rest =>
      match parseStrBody rest with
      | none => none
      | some (key, rest2) =>
        match skipWs rest2 with
        | ':' :: rest3 =>
          match parseVal fuel rest3 with
          | none => none
          | some (v, rest4) =>
            let acc2 := dictInsert acc (String.mk key) v
            match skipWs rest4 with
            | ',' :: rest5 => parseMembers fuel acc2 rest5
            | c2 :: rest5 => if c2 = rbraceChar then some (.obj acc2, rest5) else none
            | [] => none
        | _ => none
    | _ => none

/-- Parse an array body after the opening bracket. -/
def parseArrBody : Nat → List Char → Option (JsonVal × List Char)
  | 0, _ => none
  | Nat.succ fuel, cs =>
    match skipWs cs with
    | ']' :: rest => some (.arr [], rest)
    | cs2 => parseElems fuel [] cs2

/-- Parse the elements of a non-empty array. -/
def parseElems : Nat → List JsonVal → List Char → Option (JsonVal × List Char)
  | 0, _, _ => none
  | Nat.succ fuel, acc, cs =>
    match parseVal fuel cs with
    | none => none
    | some (v, rest) =>
      match skipWs rest with
      | ',' :: rest2 => parseElems fuel (acc ++ [v]) rest2
      | ']' :: rest2 => some (.arr (acc ++ [v]), rest2)
      | _ => none

end

/-- `json.loads`: parse a full document; trailing garbage rejects. -/
def jsonLoads (s : String) : Option JsonVal :=
  match parseVal (s.length + 1) s.data with
  | some (v, rest) => if (skipWs rest).isEmpty then some v else none
  | none => none

/-- One hex digit as a string (for control-character escapes). -/
def hexDigit (n : Nat) : String :=
  String.singleton (Char.ofNat (if n < 10 then 48 + n else 87 + n))

/-- Serialize one character of a JSON string. -/
def escDumpChar (c : Char) : String :=
  if c = '"' then "\\\""
  else if c = '\\' then "\\\\"
  else if c = '\n' then "\\n"
  else if c = '\t' then "\\t"
  else if c = '\r' then "\\r"
  else if c = '\x08' then "\\b"
  else if c = '\x0c' then "\\f"
  else if c.toNat < 32 then "\\u00" ++ hexDigit (c.toNat / 16) ++ hexDigit (c.toNat % 16)
  else String.singleton c

/-- Serialize a JSON string (`ensure_ascii=False`: non-ASCII
verbatim). -/
def strDumps (s : String) : String :=
  "\"" ++ String.join (s.data.map escDumpChar) ++ "\""

/-- Serialize a number.  Integral values print exactly; a non-integral
value would print as a Python float repr, which is outside this model
(no modelled payload dumps one). -/
def ratDumps (q : ℚ) : String :=
  if q.den = 1 then toString q.num else toString q

mutual

/-- `json.dumps` with the default separators. -/
def jsonDumps : JsonVal → String
  | .null => "null"
  | .bool true => "true"
  | .bool false => "false"
  | .num q => ratDumps q
  | .str s => strDumps s
  | .arr xs => "[" ++ dumpsElems xs ++ "]"
  | .obj fs => "\x7b" ++ dumpsFields fs ++ "\x7d"

/-- Serialize array elements. -/
def dumpsElems : List JsonVal → String
  | [] => ""
  | [x] => jsonDumps x
  | x :: rest => jsonDumps x ++ ", " ++ dumpsElems rest

/-- Serialize object members. -/
def dumpsFields : List (String × JsonVal) → String
  | [] => ""
  | [kv] => strDumps kv.1 ++ ": " ++ jsonDumps kv.2
  | kv :: rest => strDumps kv.1 ++ ": " ++ jsonDumps kv.2 ++ ", " ++ dumpsFields rest

end

/-! ## `app/providers/ollama_provider.py` -/

/-- Python `str.strip()` whitespace (the ASCII part). -/
def pyIsSpace (c : Char) : Bool :=
  c = ' ' ∨ c = '\t' ∨ c = '\n' ∨ c = '\r' ∨ c = '\x0b' ∨ c = '\x0c'

/-- Python `text.strip()`. -/
def pyStrip (s : String) : String :=
  String.mk (((s.data.dropWhile pyIsSpace).reverse.dropWhile pyIsSpace).reverse)

/-- The greedy DOTALL search for an open brace with any closing brace
after it: the match starts at the first opening brace that has a later
closing brace and ends at the last closing brace of the text. -/
def braceSearch (s : String) : Option String :=
  let cs := s.data
  match cs.findIdx? (· = lbraceChar),
      (cs.reverse.findIdx? (· = rbraceChar)).map (fun j => cs.length - 1 - j) with
  | some i, some j =>
    if i < j then some (String.mk ((cs.drop i).take (j - i + 1))) else none
  | _, _ => none

/-- `OllamaProvider._extract_json_chunk`: strip, try a direct parse,
then try the brace-delimited region; when everything fails return the
stripped text itself (never an error). -/
def extract_json_chunk (text : String) : JsonVal :=
  let stripped := pyStrip text
  if stripped = "" then .str stripped
  else
    match jsonLoads stripped with
    | some v => v
    | none =>
      match braceSearch stripped with
      | some candidate =>
        match jsonLoads candidate with
        | some v => v
        | none => .str stripped
      | none => .str stripped

/-- `OllamaProvider._safe_json_loads`: dicts and non-strings pass
through; strings go through the best-effort extraction. -/
def safeJsonLoads : JsonVal → JsonVal
  | .obj fs => .obj fs
  | .str s => extract_json_chunk s
  | v => v

/-- `OllamaProvider._structured_output_instruction`: the synthetic
system message injected for structured output; `none` for plain text.
For `json_schema`, `schema_payload.get("schema") or schema_payload` is
serialized verbatim into the directive. -/
def OllamaProvider.structured_output_instruction (rf : ResponseFormatConfig) :
    Option (String × String) :=
  match rf.type with
  | .json_object =>
    some ("system", "You must answer with a single valid JSON object and no extra text.")
  | .json_schema =>
    let schema_payload := rf.json_schema.getD []
    let schema :=
      let s := pyGet schema_payload "schema"
      if s.truthy then s else .obj schema_payload
    some ("system",
      "Respond strictly with JSON that validates against the following schema: "
        ++ jsonDumps schema ++ ". No commentary.")
  | .text => none

/-- `OllamaProvider._build_messages`: the user messages, with the
structured-output guardrail prepended as the first system message when
a non-text response format is requested. -/
def OllamaProvider.build_messages (request : ChatCompletionRequest) : List JDict :=
  let base := request.messages.map messageDump
  match request.response_format with
  | none => base
  | some rf =>
    if rf.type = RFType.text then base
    else
      match OllamaProvider.structured_output_instruction rf with
      | some rc => [("role", .str rc.1), ("content", .str rc.2)] :: base
      | none => base

/-- `OllamaProvider._build_payload`: the request body of the POST to
`\x7bbase_url\x7d/api/chat`.  Total: the local adapter has no rejection
path, so the network call always proceeds. -/
def OllamaProvider.build_payload (request : ChatCompletionRequest)
    (stream : Bool) : JDict :=
  let p0 : JDict :=
    [("model", .str (request.model.getD default_ollama_model)),
     ("messages", .arr ((OllamaProvider.build_messages request).map .obj)),
     ("stream", .bool stream)]
  let o0 : JDict := []
  let o1 := match request.temperature with
    | some t => dictInsert o0 "temperature" (.num t)
    | none => o0
  let o2 := match request.top_p with
    | some t => dictInsert o1 "top_p" (.num t)
    | none => o1
  let o3 := match request.max_tokens with
    | some n => dictInsert o2 "num_predict" (.num (n : ℚ))
    | none => o2
  if o3.isEmpty then p0 else dictInsert p0 "options" (.obj o3)

/-- The usage payload `OllamaProvider.create_completion` attaches to its
response: present when the backend response has an `eval_count` or
`eval_duration` key, and holding exactly the keys `eval_count`,
`eval_duration`, `total_duration` (each `None` when absent from the
backend response). -/
def OllamaProvider.completionUsage (data : JDict) : Option JDict :=
  if (dictGet data "eval_count").isSome ∨ (dictGet data "eval_duration").isSome then
    some [("eval_count", pyGet data "eval_count"),
          ("eval_duration", pyGet data "eval_duration"),
          ("total_duration", pyGet data "total_duration")]
  else none

/-- One line of the local streaming body: the source skips empty lines
and decodes every other line with `json.loads` (a backend line is one
JSON object). -/
inductive OLStreamLine where
  | blank
  | dataLine (payload : JDict)

/-- The terminal marker of a local stream line: the truthiness of
`data.get("done", False)`. -/
def olLineDone (d : JDict) : Bool :=
  (pyGetD d "done" (.bool false)).truthy

/-- The chunk built from one local stream line: delta is
`message.content`, JSON-extracted when a non-text response format is
requested and the delta is truthy.  (A non-object `message` value would
raise in Python; no modelled flow produces one.) -/
def olChunkOfData (respFmtNonText : Bool) (payloadModel : String)
    (d : JDict) : ChatCompletionChunk :=
  let message : JDict :=
    match pyGetD d "message" (.obj []) with
    | .obj m => m
    | _ => []
  let deltaRaw := pyGet message "content"
  let delta :=
    if respFmtNonText ∧ deltaRaw.truthy then safeJsonLoads deltaRaw else deltaRaw
  ⟨"ollama", modelField d payloadModel, delta, olLineDone d, .obj d⟩

/-- `OllamaProvider.create_completion_stream` as the translation of the
backend line sequence into the yielded chunk sequence: skip empty
lines, map each remaining line to exactly one chunk, stop right after
yielding a chunk whose backend `done` flag is truthy. -/
def OllamaProvider.processLines (respFmtNonText : Bool) (payloadModel : String) :
    List OLStreamLine → List ChatCompletionChunk
  | [] => []
  | .blank :: rest => OllamaProvider.processLines respFmtNonText payloadModel rest
  | .dataLine d :: rest =>
    let c := olChunkOfData respFmtNonText payloadModel d
    if c.done then [c]
    else c :: OllamaProvider.processLines respFmtNonText payloadModel rest

/-! ## `app/main.py`: usage normalization -/

/-- Python `a or b` on decoded JSON values: the first operand when
truthy, else the second. -/
def pyOrJ (a b : JsonVal) : JsonVal :=
  if a.truthy then a else b

/-- `normalize_usage(provider, usage)` from `app/main.py`: falsy usage
passes through; the local provider maps `prompt_eval_count`/`eval_count`
(with fallbacks) onto the normalized counters; every other provider
takes `prompt_tokens`/`completion_tokens` verbatim with default 0. -/
def normalize_usage (provider : String) (usage : Option JDict) : Option JDict :=
  match usage with
  | none => none
  | some u =>
    if u.isEmpty then some u
    else if provider = "ollama" then
      let prompt_tokens :=
        jsonToInt (pyOrJ (pyGet u "prompt_eval_count") (pyOrJ (pyGet u "prompt_tokens") (.num 0)))
      let completion_tokens :=
        jsonToInt (pyOrJ (pyGet u "eval_count") (pyOrJ (pyGet u "completion_tokens") (.num 0)))
      let eval_count :=
        jsonToInt (pyOrJ (pyGet u "eval_count") (pyOrJ (.num (completion_tokens : ℚ)) (.num 0)))
      some [("prompt_tokens", .num (prompt_tokens : ℚ)),
            ("completion_tokens", .num (completion_tokens : ℚ)),
            ("eval_count", .num (eval_count : ℚ))]
    else
      some [("prompt_tokens", .num ((jsonToInt (pyGetD u "prompt_tokens" (.num 0))) : ℚ)),
            ("completion_tokens", .num ((jsonToInt (pyGetD u "completion_tokens" (.num 0))) : ℚ))]

/-! ## Claim-support definitions -/

/-- The aggregate stored for `provider:model` in a tracker state (the
fresh zero aggregate when the key is absent). -/
def aggAt (st : TrackerState) (provider model : String) : UsageAggregate :=
  (st.per_key.lookup (provider ++ ":" ++ model)).getD (UsageAggregate.init provider model)

/-- The amount `record` adds to one token counter: the usage value under
the given key, and 0 when usage is absent (or falsy). -/
def recordTokenIncrement (usage : Option JDict) (k : String) : Int :=
  match usage with
  | some u => if u.isEmpty then 0 else jsonToInt (pyGetD u k (.num 0))
  | none => 0

/-- Well-formed cloud stream framing: the line sequence reaches a
decodable terminal envelope (non-null `finish_reason`) before the
`[DONE]` sentinel or the end of the body. -/
def wfOA : List OAStreamLine → Bool
  | [] => false
  | .blank :: rest => wfOA rest
  | .comment :: rest => wfOA rest
  | .nonData :: rest => wfOA rest
  | .doneSentinel :: _ => false
  | .dataLine d :: rest =>
    match oaEnvelope d with
    | .error _ => false
    | .ok x => if x.2 then true else wfOA rest

/-- Well-formed local stream framing: the line sequence reaches an
envelope whose `done` flag is truthy. -/
def wfOL : List OLStreamLine → Bool
  | [] => false
  | .blank :: rest => wfOL rest
  | .dataLine d :: rest => if olLineDone d then true else wfOL rest

/-- A content-bearing cloud stream envelope (usage null, as the backend
sends on every choices-bearing chunk under `include_usage`). -/
def oaContentEnvelope : JDict :=
  [("model", .str "gpt-4o-mini"),
   ("choices", .arr [.obj [("delta", .obj [("content", .str "Hello")]),
                           ("finish_reason", .null)]]),
   ("usage", .null)]

/-- The `finish_reason` envelope of the cloud stream under
`include_usage`: terminal marker set, usage still null. -/
def oaFinishEnvelope : JDict :=
  [("model", .str "gpt-4o-mini"),
   ("choices", .arr [.obj [("delta", .obj []), ("finish_reason", .str "stop")]]),
   ("usage", .null)]

/-- The final cloud stream envelope under `include_usage`: an empty
`choices` array and the cumulative usage totals. -/
def oaUsageEnvelope : JDict :=
  [("model", .str "gpt-4o-mini"),
   ("choices", .arr []),
   ("usage", .obj [("prompt_tokens", .num 9), ("completion_tokens", .num 2),
                   ("total_tokens", .num 11)])]

/-- The documented cloud streaming body under the `include_usage`
opt-in: content envelopes with null usage, the `finish_reason` envelope
(usage still null), then one choices-empty envelope carrying the
cumulative usage, then the sentinel. -/
def oaUsageFraming : List OAStreamLine :=
  [.dataLine oaContentEnvelope, .dataLine oaFinishEnvelope,
   .dataLine oaUsageEnvelope, .doneSentinel]

/-! ## General lemmas: dict lookups, updates, and the snapshot fold -/

theorem lookup_cons_self {β : Type} (k : String) (v : β) (rest : List (String × β)) :
    List.lookup k ((k, v) :: rest) = some v := by
  simp [List.lookup]

theorem lookup_cons_ne {β : Type} (rest : List (String × β)) (v1 : β)
    {k k1 : String} (h : k ≠ k1) :
    List.lookup k ((k1, v1) :: rest) = List.lookup k rest := by
  cases hbeq : k == k1 with
  | true => exact absurd (eq_of_beq hbeq) h
  | false => simp [List.lookup, hbeq]

theorem lookup_dictInsert_self {β : Type} :
    ∀ (d : List (String × β)) (k : String) (v : β),
      (dictInsert d k v).lookup k = some v
  | [], k, v => lookup_cons_self k v []
  | (k1, v1) :: rest, k, v => by
    by_cases h : k1 = k
    · subst h
      simp [dictInsert, lookup_cons_self]
    · rw [dictInsert, if_neg h, lookup_cons_ne _ _ (Ne.symm h)]
      exact lookup_dictInsert_self rest k v

theorem dictInsert_of_lookup_none {β : Type} :
    ∀ (d : List (String × β)) (k : String) (v : β),
      d.lookup k = none → dictInsert d k v = d ++ [(k, v)]
  | [], _, _, _ => rfl
  | (k1, v1) :: rest, k, v, h => by
    by_cases hk : k1 = k
    · subst hk
      rw [lookup_cons_self] at h
      exact Option.noConfusion h
    · have h2 : rest.lookup k = none := by
        rwa [lookup_cons_ne rest v1 (Ne.symm hk)] at h
      simp [dictInsert, hk, dictInsert_of_lookup_none rest k v h2]

theorem lookup_append_of_none {β : Type} :
    ∀ (l1 l2 : List (String × β)) (k : String),
      l1.lookup k = none → (l1 ++ l2).lookup k = l2.lookup k
  | [], _, _, _ => rfl
  | (k1, v1) :: rest, l2, k, h => by
    by_cases hk : k1 = k
    · subst hk
      rw [lookup_cons_self] at h
      exact Option.noConfusion h
    · have h2 : rest.lookup k = none := by
        rwa [lookup_cons_ne rest v1 (Ne.symm hk)] at h
      rw [List.cons_append, lookup_cons_ne _ _ (Ne.symm hk)]
      exact lookup_append_of_none rest l2 k h2

theorem sum_map_dictInsert {α : Type} [AddCommGroup α] (f : UsageAggregate → α) :
    ∀ (d : List (String × UsageAggregate)) (k : String) (v : UsageAggregate),
      ((dictInsert d k v).map (fun p => f p.2)).sum =
        (d.map (fun p => f p.2)).sum + f v -
          ((d.lookup k).elim 0 (fun prev => f prev))
  | [], k, v => by simp [dictInsert, List.lookup]
  | (k1, v1) :: rest, k, v => by
    by_cases h : k1 = k
    · subst h
      rw [dictInsert, if_pos rfl, lookup_cons_self]
      simp [Option.elim]
      abel
    · rw [dictInsert, if_neg h, lookup_cons_ne rest v1 (Ne.symm h)]
      simp only [List.map_cons, List.sum_cons, sum_map_dictInsert f rest k v]
      abel

theorem snapshotGo_field {α : Type} [AddCommMonoid α]
    (g : UsageTotals → α) (f : UsageAggregate → α)
    (hstep : ∀ t a, g (totalsStep t a) = g t + f a) :
    ∀ (l : List (String × UsageAggregate)) (t : UsageTotals)
      (pm : List (String × UsageAggregate)),
      g (snapshotGo t pm l).totals = g t + (l.map (fun p => f p.2)).sum
  | [], t, pm => by simp [snapshotGo]
  | (k, a) :: rest, t, pm => by
    simp [snapshotGo, snapshotGo_field g f hstep rest, hstep, add_assoc]

theorem build_totals_requests (table : List (String × UsageAggregate)) :
    (build_snapshot_locked table).totals.requests =
      (table.map (fun p => p.2.requests)).sum := by
  simpa [build_snapshot_locked, UsageTotals.zero] using
    snapshotGo_field (fun t => t.requests) (fun a => a.requests)
      (fun _ _ => rfl) table UsageTotals.zero []

theorem build_totals_prompt_tokens (table : List (String × UsageAggregate)) :
    (build_snapshot_locked table).totals.prompt_tokens =
      (table.map (fun p => p.2.prompt_tokens)).sum := by
  simpa [build_snapshot_locked, UsageTotals.zero] using
    snapshotGo_field (fun t => t.prompt_tokens) (fun a => a.prompt_tokens)
      (fun _ _ => rfl) table UsageTotals.zero []

theorem build_totals_completion_tokens (table : List (String × UsageAggregate)) :
    (build_snapshot_locked table).totals.completion_tokens =
      (table.map (fun p => p.2.completion_tokens)).sum := by
  simpa [build_snapshot_locked, UsageTotals.zero] using
    snapshotGo_field (fun t => t.completion_tokens) (fun a => a.completion_tokens)
      (fun _ _ => rfl) table UsageTotals.zero []

theorem build_totals_prompt_chars (table : List (String × UsageAggregate)) :
    (build_snapshot_locked table).totals.prompt_chars =
      (table.map (fun p => p.2.prompt_chars)).sum := by
  simpa [build_snapshot_locked, UsageTotals.zero] using
    snapshotGo_field (fun t => t.prompt_chars) (fun a => a.prompt_chars)
      (fun _ _ => rfl) table UsageTotals.zero []

theorem build_totals_eval_count (table : List (String × UsageAggregate)) :
    (build_snapshot_locked table).totals.eval_count =
      (table.map (fun p => p.2.eval_count)).sum := by
  simpa [build_snapshot_locked, UsageTotals.zero] using
    snapshotGo_field (fun t => t.eval_count) (fun a => a.eval_count)
      (fun _ _ => rfl) table UsageTotals.zero []

theorem build_totals_cost_usd (table : List (String × UsageAggregate)) :
    (build_snapshot_locked table).totals.cost_usd =
      (table.map (fun p => p.2.cost_usd)).sum := by
  simpa [build_snapshot_locked, UsageTotals.zero] using
    snapshotGo_field (fun t => t.cost_usd) (fun a => a.cost_usd)
      (fun _ _ => rfl) table UsageTotals.zero []

theorem snapshotGo_per_model :
    ∀ (l : List (String × UsageAggregate)) (t : UsageTotals)
      (pm : List (String × UsageAggregate)),
      (∀ p ∈ l, pm.lookup p.1 = none) → (l.map Prod.fst).Nodup →
      (snapshotGo t pm l).per_model = pm ++ l
  | [], t, pm, _, _ => by simp [snapshotGo]
  | (k, a) :: rest, t, pm, hnone, hnodup => by
    have hk : pm.lookup k = none := hnone (k, a) (by simp)
    have hins : dictInsert pm k a = pm ++ [(k, a)] :=
      dictInsert_of_lookup_none pm k a hk
    have hmem : k ∉ rest.map Prod.fst := by
      have h2 : (k :: rest.map Prod.fst).Nodup := by simpa using hnodup
      exact (List.nodup_cons.mp h2).1
    have hrest : ∀ p ∈ rest, (pm ++ [(k, a)]).lookup p.1 = none := by
      intro p hp
      have h1 : pm.lookup p.1 = none := hnone p (by simp [hp])
      have hne : p.1 ≠ k := by
        intro he
        exact hmem (he ▸ List.mem_map_of_mem Prod.fst hp)
      rw [lookup_append_of_none pm _ _ h1, lookup_cons_ne [] a hne]
      rfl
    have hnodup2 : (rest.map Prod.fst).Nodup := by
      have h2 : (k :: rest.map Prod.fst).Nodup := by simpa using hnodup
      exact (List.nodup_cons.mp h2).2
    calc (snapshotGo t pm ((k, a) :: rest)).per_model
        = (snapshotGo (totalsStep t a) (dictInsert pm k a) rest).per_model := rfl
      _ = (pm ++ [(k, a)]) ++ rest := by
          rw [hins]
          exact snapshotGo_per_model rest _ _ hrest hnodup2
      _ = pm ++ ((k, a) :: rest) := by simp

theorem recordUpdateAgg_requests (a : UsageAggregate) (u : Option JDict)
    (pc : Option Int) (c : Option ℚ) :
    (recordUpdateAgg a u pc c).requests = a.requests + 1 := by
  unfold recordUpdateAgg
  cases u with
  | none => cases pc <;> cases c <;> rfl
  | some d =>
    by_cases hd : d.isEmpty <;> cases pc <;> cases c <;> simp [hd]

theorem recordUpdateAgg_prompt_tokens (a : UsageAggregate) (u : Option JDict)
    (pc : Option Int) (c : Option ℚ) :
    (recordUpdateAgg a u pc c).prompt_tokens =
      a.prompt_tokens + recordTokenIncrement u "prompt_tokens" := by
  unfold recordUpdateAgg recordTokenIncrement
  cases u with
  | none => cases pc <;> cases c <;> simp
  | some d =>
    by_cases hd : d.isEmpty <;> cases pc <;> cases c <;> simp [hd]

theorem recordUpdateAgg_completion_tokens (a : UsageAggregate) (u : Option JDict)
    (pc : Option Int) (c : Option ℚ) :
    (recordUpdateAgg a u pc c).completion_tokens =
      a.completion_tokens + recordTokenIncrement u "completion_tokens" := by
  unfold recordUpdateAgg recordTokenIncrement
  cases u with
  | none => cases pc <;> cases c <;> simp
  | some d =>
    by_cases hd : d.isEmpty <;> cases pc <;> cases c <;> simp [hd]

theorem recordUpdateAgg_eval_count (a : UsageAggregate) (u : Option JDict)
    (pc : Option Int) (c : Option ℚ) :
    (recordUpdateAgg a u pc c).eval_count =
      a.eval_count + recordTokenIncrement u "eval_count" := by
  unfold recordUpdateAgg recordTokenIncrement
  cases u with
  | none => cases pc <;> cases c <;> simp
  | some d =>
    by_cases hd : d.isEmpty <;> cases pc <;> cases c <;> simp [hd]

theorem recordUpdateAgg_cost_some (a : UsageAggregate) (u : Option JDict)
    (pc : Option Int) (c : ℚ) :
    (recordUpdateAgg a u pc (some c)).cost_usd = a.cost_usd + c := by
  unfold recordUpdateAgg
  cases u with
  | none => cases pc <;> rfl
  | some d =>
    by_cases hd : d.isEmpty <;> cases pc <;> simp [hd]

theorem record_eq (st : TrackerState) (p m : String) (u : Option JDict)
    (pc : Option Int) (c : Option ℚ) :
    UsageTracker.record st p m u pc c =
      (⟨dictInsert st.per_key (p ++ ":" ++ m) (recordUpdateAgg (aggAt st p m) u pc c),
        some (build_snapshot_locked
          (dictInsert st.per_key (p ++ ":" ++ m) (recordUpdateAgg (aggAt st p m) u pc c)))⟩,
       build_snapshot_locked
         (dictInsert st.per_key (p ++ ":" ++ m) (recordUpdateAgg (aggAt st p m) u pc c))) := by
  unfold UsageTracker.record aggAt
  cases hl : st.per_key.lookup (p ++ ":" ++ m) with
  | none => simp [hl]
  | some a => simp [hl]

theorem record_snapshot_eq_state (st : TrackerState) (p m : String)
    (u : Option JDict) (pc : Option Int) (c : Option ℚ) :
    (UsageTracker.record st p m u pc c).2 =
      build_snapshot_locked (UsageTracker.record st p m u pc c).1.per_key := by
  simp [record_eq]

theorem record_totals_requests (st : TrackerState) (p m : String)
    (u : Option JDict) (pc : Option Int) (c : Option ℚ) :
    (UsageTracker.record st p m u pc c).2.totals.requests =
      (build_snapshot_locked st.per_key).totals.requests + 1 := by
  simp only [record_eq]
  simp only [build_totals_requests, sum_map_dictInsert, recordUpdateAgg_requests]
  unfold aggAt
  cases hl : st.per_key.lookup (p ++ ":" ++ m) with
  | none => simp [hl, UsageAggregate.init]
  | some prev =>
    simp [hl, Option.elim]
    omega

theorem record_totals_cost (st : TrackerState) (p m : String)
    (u : Option JDict) (pc : Option Int) (c : ℚ) :
    (UsageTracker.record st p m u pc (some c)).2.totals.cost_usd =
      (build_snapshot_locked st.per_key).totals.cost_usd + c := by
  simp only [record_eq]
  simp only [build_totals_cost_usd, sum_map_dictInsert, recordUpdateAgg_cost_some]
  unfold aggAt
  cases hl : st.per_key.lookup (p ++ ":" ++ m) with
  | none => simp [hl, UsageAggregate.init]
  | some prev =>
    simp [hl, Option.elim]
    ring

theorem applyRecords_cons (st : TrackerState) (c : RecordCall) (rest : List RecordCall) :
    applyRecords st (c :: rest) =
      applyRecords (UsageTracker.record st c.provider c.model c.usage
        c.prompt_chars c.cost_usd).1 rest := rfl

theorem registerSeed_record (st : TrackerState) (p m : String)
    (u : Option JDict) (pc : Option Int) (c : Option ℚ) :
    UsageTracker.registerSeed (UsageTracker.record st p m u pc c).1 =
      build_snapshot_locked (UsageTracker.record st p m u pc c).1.per_key := by
  simp [record_eq, UsageTracker.registerSeed]

theorem registerSeed_applyRecords :
    ∀ (calls : List RecordCall) (st : TrackerState),
      UsageTracker.registerSeed st = build_snapshot_locked st.per_key →
      UsageTracker.registerSeed (applyRecords st calls) =
        build_snapshot_locked (applyRecords st calls).per_key
  | [], _, h => h
  | c :: rest, st, _ => by
    rw [applyRecords_cons]
    exact registerSeed_applyRecords rest _ (registerSeed_record st _ _ _ _ _)

theorem applyRecords_requests :
    ∀ (calls : List RecordCall) (st : TrackerState),
      (build_snapshot_locked (applyRecords st calls).per_key).totals.requests =
        (build_snapshot_locked st.per_key).totals.requests + calls.length
  | [], st => by simp [applyRecords]
  | c :: rest, st => by
    rw [applyRecords_cons, applyRecords_requests rest,
      ← record_snapshot_eq_state, record_totals_requests]
    simp
    omega

theorem oa_processLines_wf (pm : String) :
    ∀ lines, wfOA lines = true →
      ∃ cs, OpenAIProvider.processLines pm lines = .ok cs
        ∧ (cs.filter (fun c => c.done)).length = 1
        ∧ ∃ c, cs.getLast? = some c ∧ c.done = true := by
  intro lines
  induction lines with
  | nil => intro h; simp [wfOA] at h
  | cons head rest ih =>
    intro h
    cases head with
    | blank => exact ih (by simpa [wfOA] using h)
    | comment => exact ih (by simpa [wfOA] using h)
    | nonData => exact ih (by simpa [wfOA] using h)
    | doneSentinel => simp [wfOA] at h
    | dataLine d =>
      cases henv : oaEnvelope d with
      | error e => simp [wfOA, henv] at h
      | ok x =>
        obtain ⟨delta, is_done⟩ := x
        cases is_done with
        | true =>
          refine ⟨[⟨"openai", modelField d pm, delta, true, .obj d⟩], ?_, ?_, ?_⟩
          · simp [OpenAIProvider.processLines, henv]
          · simp [List.filter]
          · exact ⟨_, rfl, rfl⟩
        | false =>
          have hrest : wfOA rest = true := by simpa [wfOA, henv] using h
          obtain ⟨cs, hcs, hlen, c, hlast, hdone⟩ := ih hrest
          refine ⟨⟨"openai", modelField d pm, delta, false, .obj d⟩ :: cs, ?_, ?_, ?_⟩
          · simp [OpenAIProvider.processLines, henv, hcs]
          · simpa [List.filter] using hlen
          · cases cs with
            | nil => simp at hlast
            | cons c2 cs2 =>
              exact ⟨c, by rw [List.getLast?_cons_cons]; exact hlast, hdone⟩

theorem ol_processLines_wf (nf : Bool) (pm : String) :
    ∀ lines, wfOL lines = true →
      ((OllamaProvider.processLines nf pm lines).filter (fun c => c.done)).length = 1
      ∧ ∃ c, (OllamaProvider.processLines nf pm lines).getLast? = some c
          ∧ c.done = true := by
  intro lines
  induction lines with
  | nil => intro h; simp [wfOL] at h
  | cons head rest ih =>
    intro h
    cases head with
    | blank =>
      have := ih (by simpa [wfOL] using h)
      simpa [OllamaProvider.processLines] using this
    | dataLine d =>
      cases hd : olLineDone d with
      | true =>
        refine ⟨?_, ?_⟩
        · simp [OllamaProvider.processLines, olChunkOfData, hd, List.filter]
        · refine ⟨olChunkOfData nf pm d, ?_, ?_⟩
          · simp [OllamaProvider.processLines, olChunkOfData, hd]
          · simp [olChunkOfData, hd]
      | false =>
        have hrest : wfOL rest = true := by simpa [wfOL, hd] using h
        obtain ⟨hlen, c, hlast, hdone⟩ := ih hrest
        refine ⟨?_, ?_⟩
        · simpa [OllamaProvider.processLines, olChunkOfData, hd, List.filter] using hlen
        · cases hcs : OllamaProvider.processLines nf pm rest with
          | nil => rw [hcs] at hlast; simp at hlast
          | cons c2 cs2 =>
            refine ⟨c, ?_, hdone⟩
            rw [hcs] at hlast
            simp only [OllamaProvider.processLines, olChunkOfData, hd, if_neg]
            rw [hcs]
            simpa [olChunkOfData, hd] using hlast

/-! ## Claim theorems -/

/-- C1 (code bug): the spec demands that a full subscriber channel never
block the producer (drop or replace instead), but `record` publishes
with `await queue.put(snapshot)` on each listener queue.  On the
capacity-10 queue `register` allocates, once 10 snapshots are pending
the put suspends, so the publish path of `record()` waits on the slow
subscriber instead of dropping or replacing the update: `recordPublish`
has no non-waiting completion (`none`). -/
theorem record_publish_blocks_on_full_subscriber :
    registerQueue.maxsize = 10
    ∧ recordPublish [⟨10, List.replicate 10 (build_snapshot_locked [])⟩]
        (build_snapshot_locked []) = none :=
  ⟨rfl, rfl⟩

/-- C2 (code bug): the streaming request payload does opt in to usage
totals (`stream_options.include_usage = true`), but on the documented
`include_usage` framing — `usage: null` on every choices-bearing
envelope, cumulative usage only in a final choices-empty envelope after
the `finish_reason` envelope — the adapter stops at the `finish_reason`
envelope: the terminal `done = true` chunk it yields carries
`usage: null` in its raw payload, and the usage-bearing envelope is
never yielded. -/
theorem openai_stream_usage_code_bug :
    OpenAIProvider.build_payload
        ⟨"openai", some "gpt-4o-mini", [⟨"user", "Hi"⟩], none, none, none, none⟩ true
      = .ok [("model", .str "gpt-4o-mini"),
             ("messages", .arr [.obj [("role", .str "user"), ("content", .str "Hi")]]),
             ("stream", .bool true),
             ("stream_options", .obj [("include_usage", .bool true)])]
    ∧ OpenAIProvider.processLines "gpt-4o-mini" oaUsageFraming =
        .ok [⟨"openai", "gpt-4o-mini", .str "Hello", false, .obj oaContentEnvelope⟩,
             ⟨"openai", "gpt-4o-mini", .null, true, .obj oaFinishEnvelope⟩]
    ∧ pyGet oaFinishEnvelope "usage" = .null
    ∧ (pyGet oaUsageEnvelope "usage").truthy = true :=
  ⟨rfl, rfl, rfl, rfl⟩

/-- C3 (confirmed): over any well-formed backend line sequence — one
whose framing reaches a decodable terminal envelope — each adapter
yields exactly one chunk with `done = true`, it is the last chunk of the
sequence, and nothing is yielded after it. -/
theorem stream_single_terminal_chunk :
    (∀ (payloadModel : String) (lines : List OAStreamLine), wfOA lines = true →
      ∃ cs, OpenAIProvider.processLines payloadModel lines = .ok cs
        ∧ (cs.filter (fun c => c.done)).length = 1
        ∧ ∃ c, cs.getLast? = some c ∧ c.done = true)
    ∧ ∀ (respFmtNonText : Bool) (payloadModel : String) (lines : List OLStreamLine),
        wfOL lines = true →
        ((OllamaProvider.processLines respFmtNonText payloadModel lines).filter
            (fun c => c.done)).length = 1
        ∧ ∃ c, (OllamaProvider.processLines respFmtNonText payloadModel lines).getLast?
              = some c ∧ c.done = true :=
  ⟨fun pm lines h => oa_processLines_wf pm lines h,
   fun nf pm lines h => ol_processLines_wf nf pm lines h⟩

/-- C3 witness: concrete well-formed line sequences for both adapters. -/
theorem stream_single_terminal_chunk_witness :
    (wfOA [.comment, .dataLine oaContentEnvelope, .dataLine oaFinishEnvelope,
        .doneSentinel] = true
      ∧ ∃ cs, OpenAIProvider.processLines "gpt-4o-mini"
            [.comment, .dataLine oaContentEnvelope, .dataLine oaFinishEnvelope,
             .doneSentinel] = .ok cs
          ∧ (cs.filter (fun c => c.done)).length = 1
          ∧ ∃ c, cs.getLast? = some c ∧ c.done = true)
    ∧ (wfOL [.blank, .dataLine [("message", .obj [("content", .str "Hi")])],
          .dataLine [("message", .obj [("content", .str "!")]), ("done", .bool true),
                     ("eval_count", .num 2)]] = true
      ∧ ((OllamaProvider.processLines false "m"
            [.blank, .dataLine [("message", .obj [("content", .str "Hi")])],
             .dataLine [("message", .obj [("content", .str "!")]), ("done", .bool true),
                        ("eval_count", .num 2)]]).filter (fun c => c.done)).length = 1
      ∧ ∃ c, (OllamaProvider.processLines false "m"
            [.blank, .dataLine [("message", .obj [("content", .str "Hi")])],
             .dataLine [("message", .obj [("content", .str "!")]), ("done", .bool true),
                        ("eval_count", .num 2)]]).getLast? = some c ∧ c.done = true) :=
  ⟨⟨rfl, stream_single_terminal_chunk.1 "gpt-4o-mini" _ rfl⟩,
   ⟨rfl, stream_single_terminal_chunk.2 false "m" _ rfl⟩⟩

/-- C4 (confirmed): one `record(provider, model, usage, prompt_chars,
cost_usd)` call on any table state increments the requests of the
`provider:model` aggregate by exactly 1, adds the usage token counters
(0 when usage is absent or falsy), and the returned snapshot exceeds the
previous totals by exactly 1 request and exactly the supplied cost. -/
theorem record_increments_spec (st : TrackerState) (provider model : String)
    (usage : Option JDict) (prompt_chars : Option Int) (cost : ℚ) :
    (aggAt (UsageTracker.record st provider model usage prompt_chars (some cost)).1
        provider model).requests = (aggAt st provider model).requests + 1
    ∧ (aggAt (UsageTracker.record st provider model usage prompt_chars (some cost)).1
        provider model).prompt_tokens
      = (aggAt st provider model).prompt_tokens + recordTokenIncrement usage "prompt_tokens"
    ∧ (aggAt (UsageTracker.record st provider model usage prompt_chars (some cost)).1
        provider model).completion_tokens
      = (aggAt st provider model).completion_tokens
          + recordTokenIncrement usage "completion_tokens"
    ∧ (aggAt (UsageTracker.record st provider model usage prompt_chars (some cost)).1
        provider model).eval_count
      = (aggAt st provider model).eval_count + recordTokenIncrement usage "eval_count"
    ∧ (UsageTracker.record st provider model usage prompt_chars (some cost)).2.totals.requests
      = (build_snapshot_locked st.per_key).totals.requests + 1
    ∧ (UsageTracker.record st provider model usage prompt_chars (some cost)).2.totals.cost_usd
      = (build_snapshot_locked st.per_key).totals.cost_usd + cost := by
  have hagg : aggAt (UsageTracker.record st provider model usage prompt_chars (some cost)).1
      provider model
      = recordUpdateAgg (aggAt st provider model) usage prompt_chars (some cost) := by
    unfold aggAt
    simp only [record_eq]
    rw [lookup_dictInsert_self]
    rfl
  refine ⟨?_, ?_, ?_, ?_, record_totals_requests st provider model usage prompt_chars
      (some cost), record_totals_cost st provider model usage prompt_chars cost⟩
  · rw [hagg, recordUpdateAgg_requests]
  · rw [hagg, recordUpdateAgg_prompt_tokens]
  · rw [hagg, recordUpdateAgg_completion_tokens]
  · rw [hagg, recordUpdateAgg_eval_count]

/-- C5 (confirmed): in every snapshot built from a table (with the
unique-key invariant every Python dict has), each totals field equals
the sum of that field over the per_model entries of the same
snapshot. -/
theorem snapshot_totals_eq_sum_per_model (table : List (String × UsageAggregate))
    (h : (table.map Prod.fst).Nodup) :
    (build_snapshot_locked table).totals.requests
      = ((build_snapshot_locked table).per_model.map (fun p => p.2.requests)).sum
    ∧ (build_snapshot_locked table).totals.prompt_tokens
      = ((build_snapshot_locked table).per_model.map (fun p => p.2.prompt_tokens)).sum
    ∧ (build_snapshot_locked table).totals.completion_tokens
      = ((build_snapshot_locked table).per_model.map (fun p => p.2.completion_tokens)).sum
    ∧ (build_snapshot_locked table).totals.prompt_chars
      = ((build_snapshot_locked table).per_model.map (fun p => p.2.prompt_chars)).sum
    ∧ (build_snapshot_locked table).totals.eval_count
      = ((build_snapshot_locked table).per_model.map (fun p => p.2.eval_count)).sum
    ∧ (build_snapshot_locked table).totals.cost_usd
      = ((build_snapshot_locked table).per_model.map (fun p => p.2.cost_usd)).sum := by
  have hpm : (build_snapshot_locked table).per_model = table := by
    simpa [build_snapshot_locked] using
      snapshotGo_per_model table UsageTotals.zero [] (fun p _ => rfl) h
  rw [hpm]
  exact ⟨build_totals_requests table, build_totals_prompt_tokens table,
    build_totals_completion_tokens table, build_totals_prompt_chars table,
    build_totals_eval_count table, build_totals_cost_usd table⟩

/-- C5 witness: a concrete two-model table. -/
theorem snapshot_totals_eq_sum_per_model_witness :
    (([("openai:gpt-4o-mini", (⟨"openai", "gpt-4o-mini", 2, 10, 20, 30, 0, 0.5⟩ : UsageAggregate)),
       ("ollama:gpt-oss:20b", (⟨"ollama", "gpt-oss:20b", 1, 0, 0, 7, 9, 0⟩ : UsageAggregate))].map
        Prod.fst).Nodup)
    ∧ ((build_snapshot_locked
          [("openai:gpt-4o-mini", ⟨"openai", "gpt-4o-mini", 2, 10, 20, 30, 0, 0.5⟩),
           ("ollama:gpt-oss:20b", ⟨"ollama", "gpt-oss:20b", 1, 0, 0, 7, 9, 0⟩)]).totals.requests
        = ((build_snapshot_locked
          [("openai:gpt-4o-mini", ⟨"openai", "gpt-4o-mini", 2, 10, 20, 30, 0, 0.5⟩),
           ("ollama:gpt-oss:20b", ⟨"ollama", "gpt-oss:20b", 1, 0, 0, 7, 9, 0⟩)]).per_model.map
            (fun p => p.2.requests)).sum
      ∧ (build_snapshot_locked
          [("openai:gpt-4o-mini", ⟨"openai", "gpt-4o-mini", 2, 10, 20, 30, 0, 0.5⟩),
           ("ollama:gpt-oss:20b", ⟨"ollama", "gpt-oss:20b", 1, 0, 0, 7, 9, 0⟩)]).totals.prompt_tokens
        = ((build_snapshot_locked
          [("openai:gpt-4o-mini", ⟨"openai", "gpt-4o-mini", 2, 10, 20, 30, 0, 0.5⟩),
           ("ollama:gpt-oss:20b", ⟨"ollama", "gpt-oss:20b", 1, 0, 0, 7, 9, 0⟩)]).per_model.map
            (fun p => p.2.prompt_tokens)).sum
      ∧ (build_snapshot_locked
          [("openai:gpt-4o-mini", ⟨"openai", "gpt-4o-mini", 2, 10, 20, 30, 0, 0.5⟩),
           ("ollama:gpt-oss:20b", ⟨"ollama", "gpt-oss:20b", 1, 0, 0, 7, 9, 0⟩)]).totals.completion_tokens
        = ((build_snapshot_locked
          [("openai:gpt-4o-mini", ⟨"openai", "gpt-4o-mini", 2, 10, 20, 30, 0, 0.5⟩),
           ("ollama:gpt-oss:20b", ⟨"ollama", "gpt-oss:20b", 1, 0, 0, 7, 9, 0⟩)]).per_model.map
            (fun p => p.2.completion_tokens)).sum
      ∧ (build_snapshot_locked
          [("openai:gpt-4o-mini", ⟨"openai", "gpt-4o-mini", 2, 10, 20, 30, 0, 0.5⟩),
           ("ollama:gpt-oss:20b", ⟨"ollama", "gpt-oss:20b", 1, 0, 0, 7, 9, 0⟩)]).totals.prompt_chars
        = ((build_snapshot_locked
          [("openai:gpt-4o-mini", ⟨"openai", "gpt-4o-mini", 2, 10, 20, 30, 0, 0.5⟩),
           ("ollama:gpt-oss:20b", ⟨"ollama", "gpt-oss:20b", 1, 0, 0, 7, 9, 0⟩)]).per_model.map
            (fun p => p.2.prompt_chars)).sum
      ∧ (build_snapshot_locked
          [("openai:gpt-4o-mini", ⟨"openai", "gpt-4o-mini", 2, 10, 20, 30, 0, 0.5⟩),
           ("ollama:gpt-oss:20b", ⟨"ollama", "gpt-oss:20b", 1, 0, 0, 7, 9, 0⟩)]).totals.eval_count
        = ((build_snapshot_locked
          [("openai:gpt-4o-mini", ⟨"openai", "gpt-4o-mini", 2, 10, 20, 30, 0, 0.5⟩),
           ("ollama:gpt-oss:20b", ⟨"ollama", "gpt-oss:20b", 1, 0, 0, 7, 9, 0⟩)]).per_model.map
            (fun p => p.2.eval_count)).sum
      ∧ (build_snapshot_locked
          [("openai:gpt-4o-mini", ⟨"openai", "gpt-4o-mini", 2, 10, 20, 30, 0, 0.5⟩),
           ("ollama:gpt-oss:20b", ⟨"ollama", "gpt-oss:20b", 1, 0, 0, 7, 9, 0⟩)]).totals.cost_usd
        = ((build_snapshot_locked
          [("openai:gpt-4o-mini", ⟨"openai", "gpt-4o-mini", 2, 10, 20, 30, 0, 0.5⟩),
           ("ollama:gpt-oss:20b", ⟨"ollama", "gpt-oss:20b", 1, 0, 0, 7, 9, 0⟩)]).per_model.map
            (fun p => p.2.cost_usd)).sum) :=
  ⟨by decide,
   snapshot_totals_eq_sum_per_model
     [("openai:gpt-4o-mini", ⟨"openai", "gpt-4o-mini", 2, 10, 20, 30, 0, 0.5⟩),
      ("ollama:gpt-oss:20b", ⟨"ollama", "gpt-oss:20b", 1, 0, 0, 7, 9, 0⟩)]
     (by decide)⟩

/-- C6 (confirmed): the pricing function returns exactly 0.00075 for
openai gpt-4o-mini with 1000/1000 tokens, exactly 0 for any model with
no pricing entry, and exactly 0 for any non-openai provider regardless
of usage.  It is a total Lean function — the embedded code has no
raising path for any (provider, model, usage) input. -/
theorem estimate_cost_usd_spec :
    estimate_cost_usd "openai" "gpt-4o-mini"
        (some [("prompt_tokens", JsonVal.num 1000), ("completion_tokens", JsonVal.num 1000)])
      = 0.00075
    ∧ (∀ model usage, OPENAI_PRICING.lookup model = none →
        OPENAI_PRICING.lookup (pyLower model) = none →
        estimate_cost_usd "openai" model usage = 0)
    ∧ ∀ provider model usage, provider ≠ "openai" →
        estimate_cost_usd provider model usage = 0 := by
  refine ⟨?_, ?_, ?_⟩
  · simp [estimate_cost_usd, pricingLookup, OPENAI_PRICING, pyGetD, dictGet, jsonToRat,
      roundTo, ratRoundHalfUp, List.lookup]
    norm_num
    have h : Int.fdiv 15000001 2 = 7500000 := by decide
    rw [h]
    norm_num
  · intro model usage h1 h2
    cases usage with
    | none => rfl
    | some u => simp [estimate_cost_usd, pricingLookup, h1, h2]
  · intro provider model usage h
    cases usage with
    | none => rfl
    | some u => simp [estimate_cost_usd, h]

/-- C6 witness: an unknown model degrades to zero cost, and the local
provider prices to zero. -/
theorem estimate_cost_usd_spec_witness :
    (OPENAI_PRICING.lookup "mystery-model" = none
      ∧ OPENAI_PRICING.lookup (pyLower "mystery-model") = none
      ∧ estimate_cost_usd "openai" "mystery-model"
          (some [("prompt_tokens", JsonVal.num 42)]) = 0)
    ∧ (("ollama" : String) ≠ "openai"
      ∧ estimate_cost_usd "ollama" "gpt-4o-mini"
          (some [("prompt_tokens", JsonVal.num 1000),
                 ("completion_tokens", JsonVal.num 1000)]) = 0) :=
  ⟨⟨rfl, rfl, estimate_cost_usd_spec.2.1 "mystery-model" _ rfl rfl⟩,
   ⟨by decide, estimate_cost_usd_spec.2.2 "ollama" "gpt-4o-mini" _ (by decide)⟩⟩

/-- C7 counterexample: on a `json_schema` request without a usable
schema, the cloud adapter raises before the network call, but the local
adapter does not reject — `_structured_output_instruction` returns a
guardrail message embedding the empty schema and `_build_payload`
produces a complete request body, so the network call proceeds. -/
theorem json_schema_local_no_rejection :
    OpenAIProvider.map_response_format ⟨.json_schema, none⟩ =
      .error "json_schema response requires a json_schema payload"
    ∧ OllamaProvider.structured_output_instruction ⟨.json_schema, none⟩ =
        some ("system",
          "Respond strictly with JSON that validates against the following schema: \x7b\x7d. No commentary.")
    ∧ dictGet
        (OllamaProvider.build_payload
          ⟨"ollama", none, [⟨"user", "Hi"⟩], none, none, none,
           some ⟨.json_schema, none⟩⟩ false) "model"
      = some (.str "gpt-oss:20b") :=
  ⟨rfl, rfl, rfl⟩

/-- C7 amended (proved): only the cloud adapter rejects a `json_schema`
request without a usable schema before any network call; the local
adapter never rejects such a request — it proceeds, embedding the
serialized (possibly empty) schema payload in a synthetic system
instruction. -/
theorem json_schema_rejection_spec (rf : ResponseFormatConfig)
    (htype : rf.type = RFType.json_schema)
    (hbad : rf.json_schema = none ∨
      ∃ js, rf.json_schema = some js ∧ (pyGet js "schema").truthy = false) :
    (∃ msg, OpenAIProvider.map_response_format rf = .error msg)
    ∧ ∃ inst, OllamaProvider.structured_output_instruction rf = some inst := by
  obtain ⟨t, j⟩ := rf
  simp only at htype
  subst htype
  constructor
  · cases hbad with
    | inl h =>
      simp only at h
      subst h
      exact ⟨_, rfl⟩
    | inr h =>
      obtain ⟨js, hjs, hs⟩ := h
      simp only at hjs
      subst hjs
      by_cases he : js.isEmpty
      · exact ⟨"json_schema response requires a json_schema payload",
          by simp [OpenAIProvider.map_response_format, he]⟩
      · exact ⟨"json_schema response requires a schema property",
          by simp [OpenAIProvider.map_response_format, he, hs]⟩
  · exact ⟨_, rfl⟩

/-- C7 witness: a schema payload carrying only a name. -/
theorem json_schema_rejection_spec_witness :
    ((⟨RFType.json_schema, some [("name", JsonVal.str "out")]⟩ : ResponseFormatConfig).type
        = RFType.json_schema
      ∧ (pyGet [("name", JsonVal.str "out")] "schema").truthy = false)
    ∧ ((∃ msg, OpenAIProvider.map_response_format
          ⟨RFType.json_schema, some [("name", JsonVal.str "out")]⟩ = .error msg)
      ∧ ∃ inst, OllamaProvider.structured_output_instruction
          ⟨RFType.json_schema, some [("name", JsonVal.str "out")]⟩ = some inst) :=
  ⟨⟨rfl, rfl⟩,
   json_schema_rejection_spec ⟨RFType.json_schema, some [("name", JsonVal.str "out")]⟩
     rfl (.inr ⟨[("name", JsonVal.str "out")], rfl, rfl⟩)⟩

/-- C8 counterexample: on the input `" not json "` both the direct parse
and the brace-region parse fail, yet the extraction returns the
*stripped* text `"not json"`, not the original input unchanged. -/
theorem extract_json_chunk_strips_counterexample :
    jsonLoads (pyStrip " not json ") = none
    ∧ braceSearch (pyStrip " not json ") = none
    ∧ extract_json_chunk " not json " = .str "not json"
    ∧ pyStrip " not json " = "not json"
    ∧ (" not json " : String) ≠ "not json" :=
  ⟨rfl, rfl, rfl, rfl, by decide⟩

/-- C8 amended (proved): extraction returns the parsed object on the
prefixed input, and whenever both the direct parse and the brace-region
parse fail it returns the *stripped* input text (equal to the original
exactly when the input has no surrounding whitespace), never raising. -/
theorem extract_json_chunk_spec :
    extract_json_chunk "prefix \x7b\"a\":1\x7d suffix" = .obj [("a", .num 1)]
    ∧ ∀ s, jsonLoads (pyStrip s) = none →
        (∀ c, braceSearch (pyStrip s) = some c → jsonLoads c = none) →
        extract_json_chunk s = .str (pyStrip s) := by
  constructor
  · rfl
  · intro s h1 h2
    unfold extract_json_chunk
    by_cases he : pyStrip s = ""
    · simp [he]
    · rw [if_neg he, h1]
      cases hb : braceSearch (pyStrip s) with
      | none => rfl
      | some c => simp [h2 c hb]

/-- C8 witness: the documented fallback input. -/
theorem extract_json_chunk_spec_witness :
    jsonLoads (pyStrip "not json at all") = none
    ∧ (∀ c, braceSearch (pyStrip "not json at all") = some c → jsonLoads c = none)
    ∧ extract_json_chunk "not json at all" = .str (pyStrip "not json at all") := by
  have hb : braceSearch (pyStrip "not json at all") = none := rfl
  have h2 : ∀ c, braceSearch (pyStrip "not json at all") = some c → jsonLoads c = none := by
    intro c hc
    rw [hb] at hc
    exact Option.noConfusion hc
  exact ⟨rfl, h2, extract_json_chunk_spec.2 "not json at all" rfl h2⟩

/-- C10 (confirmed): the usage payload the local adapter attaches to a
non-streaming completion holds only the keys `eval_count`,
`eval_duration`, `total_duration` — never `prompt_eval_count` or
`prompt_tokens` — so its normalization always records
`prompt_tokens = 0`, even when the backend response reported a prompt
token count. -/
theorem ollama_completion_usage_spec (data : JDict) (u : JDict)
    (h : OllamaProvider.completionUsage data = some u) :
    u.map Prod.fst = ["eval_count", "eval_duration", "total_duration"]
    ∧ ∃ n, normalize_usage "ollama" (some u) = some n
        ∧ dictGet n "prompt_tokens" = some (.num 0) := by
  unfold OllamaProvider.completionUsage at h
  by_cases hc : (dictGet data "eval_count").isSome ∨ (dictGet data "eval_duration").isSome
  · rw [if_pos hc] at h
    injection h with h
    subst h
    exact ⟨rfl, _, rfl, rfl⟩
  · rw [if_neg hc] at h
    exact Option.noConfusion h

/-- C10 witness: a backend response that does report a prompt token
count. -/
theorem ollama_completion_usage_spec_witness :
    OllamaProvider.completionUsage
        [("eval_count", JsonVal.num 5), ("prompt_eval_count", JsonVal.num 7)] =
      some [("eval_count", JsonVal.num 5), ("eval_duration", JsonVal.null),
            ("total_duration", JsonVal.null)]
    ∧ (([("eval_count", JsonVal.num 5), ("eval_duration", JsonVal.null),
        ("total_duration", JsonVal.null)] : JDict).map Prod.fst
        = ["eval_count", "eval_duration", "total_duration"]
      ∧ ∃ n, normalize_usage "ollama"
            (some [("eval_count", JsonVal.num 5), ("eval_duration", JsonVal.null),
                   ("total_duration", JsonVal.null)]) = some n
          ∧ dictGet n "prompt_tokens" = some (.num 0)) :=
  ⟨rfl, ollama_completion_usage_spec
    [("eval_count", JsonVal.num 5), ("prompt_eval_count", JsonVal.num 7)] _ rfl⟩

/-- C9 (confirmed): after any sequence of N `record` calls applied to a
fresh tracker, the snapshot `register` immediately seeds into the new
subscriber channel is exactly the snapshot of the current table (so its
totals equal the current totals), its `totals.requests` equals N, and
for N > 0 it is never the empty/zero state. -/
theorem register_seed_reflects_all_records (calls : List RecordCall) :
    UsageTracker.registerSeed (applyRecords TrackerState.init calls) =
      build_snapshot_locked (applyRecords TrackerState.init calls).per_key
    ∧ (UsageTracker.registerSeed (applyRecords TrackerState.init calls)).totals.requests
      = calls.length
    ∧ (calls ≠ [] →
        (UsageTracker.registerSeed (applyRecords TrackerState.init calls)).totals.requests
          ≠ 0) := by
  have h1 : UsageTracker.registerSeed (applyRecords TrackerState.init calls) =
      build_snapshot_locked (applyRecords TrackerState.init calls).per_key :=
    registerSeed_applyRecords calls TrackerState.init rfl
  have h2 : (UsageTracker.registerSeed (applyRecords TrackerState.init calls)).totals.requests
      = calls.length := by
    rw [h1, applyRecords_requests calls TrackerState.init]
    simp [TrackerState.init, build_totals_requests]
  refine ⟨h1, h2, fun hne => ?_⟩
  rw [h2]
  have := List.length_pos.mpr hne
  omega

/-- C9 witness: two recorded requests, then a registration. -/
theorem register_seed_reflects_all_records_witness :
    (([⟨"openai", "gpt-4o-mini", some [("prompt_tokens", JsonVal.num 5)], some 3, some 0.5⟩,
       ⟨"ollama", "gpt-oss:20b", none, none, none⟩] : List RecordCall) ≠ [])
    ∧ (UsageTracker.registerSeed (applyRecords TrackerState.init
        [⟨"openai", "gpt-4o-mini", some [("prompt_tokens", JsonVal.num 5)], some 3, some 0.5⟩,
         ⟨"ollama", "gpt-oss:20b", none, none, none⟩])).totals.requests ≠ 0 :=
  ⟨List.cons_ne_nil _ _,
   (register_seed_reflects_all_records
     [⟨"openai", "gpt-4o-mini", some [("prompt_tokens", JsonVal.num 5)], some 3, some 0.5⟩,
      ⟨"ollama", "gpt-oss:20b", none, none, none⟩]).2.2 (List.cons_ne_nil _ _)⟩
